import Mathlib

/-!
Shallow embedding of the debate-scoring pipeline of `topos/channel/debatesim.py`
(class `DebateSimulator` and class `Cluster`), for checking the natural-language
specification against the code.

Modelling conventions:
* Python floats are modelled as `ℚ`.
* A Python string that is fed to `json.loads` is modelled at the collaborator
  boundary by its parse outcome: `Option JVal`, where `none` models a string
  whose parse raises `json.JSONDecodeError` and `some v` models a string that
  parses to the JSON value `v`.
* External collaborators (BERT/SentenceTransformer embeddings + cosine
  similarity, `ArgumentDetection.cluster_sentences`,
  `ArgumentDetection.fetch_argument_definition`, `hashlib.sha256`, `jwt.decode`,
  `uuid4`, the ontology extraction) are passed in as function parameters, as the
  spec treats them as black-box services.
* Python exceptions are modelled with an explicit error type `PyErr`; an
  uncaught exception propagates as an `Except.error` / an `error` field.
* Python dicts are modelled as association lists in insertion order, looked up
  with `List.lookup`.
-/

namespace Topos

/-- A JSON value, as produced by `json.loads`.  Numbers are modelled as `ℚ`. -/
inductive JVal where
  | null : JVal
  | bool (b : Bool) : JVal
  | num (q : ℚ) : JVal
  | str (s : String) : JVal
  | arr (l : List JVal) : JVal
  | obj (l : List (String × JVal)) : JVal

/-- A Python string at the `json.loads` boundary, modelled by its parse
outcome: `none` is a string whose parse raises `json.JSONDecodeError`,
`some v` a string that parses to `v`. -/
abbrev JsonStr := Option JVal

/-- The Python exception kinds that the embedded code can raise.
`jsonDecodeError` is `json.JSONDecodeError` (the only kind caught by
`gather_final_results`); `keyError` is a missing dict key; `typeError` is a
subscript / conversion on a value of the wrong type; `valueError` is
`float(...)` applied to a non-numeric value. -/
inductive PyErr where
  | jsonDecodeError : PyErr
  | keyError : PyErr
  | typeError : PyErr
  | valueError : PyErr
deriving DecidableEq, Repr

/-- `json.loads(s)`: fails with `JSONDecodeError` exactly when the string does
not parse. -/
def json_loads : JsonStr → Except PyErr JVal
  | none => .error .jsonDecodeError
  | some v => .ok v

/-- Python subscript `v[k]` with a string key: a dict yields the value or
raises `KeyError`; any non-dict value raises `TypeError`. -/
def getItem : JVal → String → Except PyErr JVal
  | .obj kvs, k =>
      match kvs.lookup k with
      | some v => .ok v
      | none => .error .keyError
  | _, _ => .error .typeError

/-- Model of Python `float(x)` on a JSON value: numbers convert, booleans
convert (`float(True) == 1.0`), everything else raises.  A numeric string such
as `"0.8"` would convert in Python; the model maps all strings to
`ValueError`, which is faithful for the non-numeric strings the claims are
about (no claim depends on a numeric-string score). -/
def pyFloat : JVal → Except PyErr ℚ
  | .num q => .ok q
  | .bool b => .ok (if b then 1 else 0)
  | .str _ => .error .valueError
  | _ => .error .typeError

/-- A value passed positionally into `Cluster.__init__`.  The call site in
`cluster_messages` (debatesim.py line 464) passes the five arguments in a
different order than the parameter list of `__init__` (line 88), so the same
field can end up holding a user-id string, a generation-nonce string, an
integer cluster label or a sentence list; this dynamic type covers all of
them. -/
inductive PyVal where
  | str (s : String) : PyVal
  | strList (l : List String) : PyVal
  | nat (n : Nat) : PyVal
deriving DecidableEq, Repr

/-- `json.dumps` of a list of strings (Python's default separators render
`["a", "b"]`).  String escaping is not modelled; the sentences in play contain
no characters needing escapes. -/
def json_dumps_strList (l : List String) : String :=
  "[" ++ String.intercalate ", " (l.map (fun s => "\"" ++ s ++ "\"")) ++ "]"

/-- Python `sorted(x)` as applied by `Cluster.generate_hash` to the dynamic
`self.sentences` field: `sorted` of a list of strings sorts it
lexicographically; `sorted` of a string yields its characters in sorted order
(each as a one-character string).  `sorted` of an int raises in Python and is
never reached by the embedded code. -/
def pySorted : PyVal → List String
  | .strList l => l.insertionSort (· ≤ ·)
  | .str s => (s.data.map (fun c => String.mk [c])).insertionSort (· ≤ ·)
  | .nat _ => []

/-- `Cluster`, debatesim.py lines 87-108.  Field names and order follow
`__init__`'s parameter list `(cluster_id, sentences, user_id, generation,
session_id)`; all fields are dynamic because the call site scrambles the
positional arguments.  `cluster_hash` is set by `__init__` via
`generate_hash`. -/
structure Cluster where
  cluster_id : PyVal
  sentences : PyVal
  cluster_hash : String
  user_id : PyVal
  generation : PyVal
  session_id : PyVal
deriving DecidableEq, Repr

/-- `Cluster.generate_hash` (lines 96-98):
`hashlib.sha256(json.dumps(sorted(self.sentences)).encode()).hexdigest()`.
The sha256 hex digest itself is an external library function, passed in as
`sha`. -/
def Cluster.generate_hash (sha : String → String) (sentences : PyVal) : String :=
  sha (json_dumps_strList (pySorted sentences))

/-- `Cluster.__init__` (lines 88-94): stores the five arguments in the fields
named by the parameter list and computes `cluster_hash` from the `sentences`
parameter. -/
def Cluster.init (sha : String → String)
    (cluster_id sentences user_id generation session_id : PyVal) : Cluster :=
  { cluster_id := cluster_id
    sentences := sentences
    cluster_hash := Cluster.generate_hash sha sentences
    user_id := user_id
    generation := generation
    session_id := session_id }

/-- A per-user map of clusters, `Dict[user_id, Dict[cluster_id, Cluster]]`,
in insertion order. -/
abbrev ClusterMap := List (String × List (Nat × Cluster))

/-- The WEPCC record returned (as a 5-tuple) by the external
`ArgumentDetection.fetch_argument_definition` and stored per cluster
(lines 475-483).  `persuasiveness_justification` is a string that
`gather_final_results` later feeds to `json.loads`, modelled at the parse
boundary (`JsonStr`). -/
structure Wepcc where
  warrant : String
  evidence : String
  persuasiveness_justification : JsonStr
  claim : String
  counterclaim : String

/-- `Dict[user_id, Dict[cluster_id, wepcc]]` in insertion order. -/
abbrev WepccMap := List (String × List (Nat × Wepcc))

/-- The external collaborators used by the pipeline, fixed at their call
contract (spec §6):
* `cluster_sentences`: `ArgumentDetection.cluster_sentences(messages,
  distance_threshold=1.45)`, a dict from integer cluster label to the grouped
  sentences;
* `fetch_argument_definition`: the LLM argument-extraction call, applied to the
  dynamic `cluster.sentences` field;
* `sim`: the composite of `SentenceTransformer.encode` on the two texts and
  `sklearn` `cosine_similarity`, i.e. `sim a b` is the similarity score of the
  embeddings of `a` and `b`;
* `sha`: `hashlib.sha256(...).hexdigest()`. -/
structure Collab where
  cluster_sentences : List String → List (Nat × List String)
  fetch_argument_definition : PyVal → Wepcc
  sim : String → String → ℚ
  sha : String → String

/-- `DebateSimulator.cluster_messages` (lines 458-467).  For each user with
more than one message the external clustering is run and each resulting
cluster is wrapped in a `Cluster` object.  The source calls
`Cluster(user_id, generation, session_id, cluster_id, cluster_sentences)`
while `__init__`'s parameters are
`(cluster_id, sentences, user_id, generation, session_id)`, so the arguments
are matched positionally in that scrambled order. -/
def cluster_messages (cl : Collab) (user_messages : List (String × List String))
    (generation session_id : String) : ClusterMap :=
  (user_messages.filter (fun p => p.2.length > 1)).map
    (fun p =>
      (p.1,
        (cl.cluster_sentences p.2).map
          (fun q =>
            (q.1,
              Cluster.init cl.sha (.str p.1) (.str generation) (.str session_id)
                (.nat q.1) (.strList q.2)))))

/-- The per-user body of `incremental_clustering`'s loop (lines 322-330).  A
user absent from the previous clustering keeps all clusters; otherwise a
cluster is kept iff the previous clustering has no cluster under the same id
with the same `cluster_hash`. -/
def incremental_user (previous_clusters : ClusterMap)
    (p : String × List (Nat × Cluster)) : String × List (Nat × Cluster) :=
  match previous_clusters.lookup p.1 with
  | none => p
  | some prev =>
      (p.1,
        p.2.filter
          (fun q =>
            match prev.lookup q.1 with
            | none => true
            | some pc => q.2.cluster_hash ≠ pc.cluster_hash))

/-- `DebateSimulator.incremental_clustering` (lines 320-332), iterating the
per-user body over `clusters.items()`. -/
def incremental_clustering (clusters previous_clusters : ClusterMap) : ClusterMap :=
  clusters.map (incremental_user previous_clusters)

/-- Append `content` to `user_messages[user_id]`, creating the key at the end
in insertion order as a Python dict would. -/
def addUserMessage (acc : List (String × List String)) (user_id content : String) :
    List (String × List String) :=
  if (acc.lookup user_id).isSome then
    acc.map (fun p => if p.1 = user_id then (p.1, p.2 ++ [content]) else p)
  else
    acc ++ [(user_id, [content])]

/-- `DebateSimulator.aggregate_user_messages` (lines 310-318).  Each history
entry is subscripted as `message['data']['user_id']` / `['data']['content']`;
an entry of the wrong shape (e.g. a bare string) raises `TypeError` /
`KeyError` exactly as the Python subscripts would.  Ids and contents are
required to be strings (the shapes the pipeline produces). -/
def aggregate_user_messages : List JVal → Except PyErr (List (String × List String)) :=
  go []
where
  /-- The loop of `aggregate_user_messages`, threading the dict being built. -/
  go (acc : List (String × List String)) :
      List JVal → Except PyErr (List (String × List String))
    | [] => .ok acc
    | message :: rest =>
        match getItem message "data" with
        | .error e => .error e
        | .ok data =>
          match getItem data "user_id" with
          | .error e => .error e
          | .ok uid =>
            match getItem data "content" with
            | .error e => .error e
            | .ok content =>
              match uid, content with
              | .str u, .str c => go (addUserMessage acc u c) rest
              | _, _ => .error .typeError

/-- `DebateSimulator.get_cluster_weight_modulator` (lines 492-517).  For every
cluster A of every user and every cluster B of every *other* user, the
similarity of A's counterclaim to B's claim is computed; scores above the
cutoff are normalized to `(sim - cutoff) / (1 - cutoff)` and collected into
A's modulator list (an entry exists for every cluster, possibly empty). -/
def get_cluster_weight_modulator (cl : Collab) (wepcc_results : WepccMap)
    (cutoff : ℚ) : List (String × List (Nat × List ℚ)) :=
  wepcc_results.map
    (fun pA =>
      (pA.1,
        pA.2.map
          (fun qA =>
            (qA.1,
              ((wepcc_results.filter (fun pB => pA.1 ≠ pB.1)).flatMap
                  (fun pB =>
                    pB.2.filterMap
                      (fun qB =>
                        let sim_score := cl.sim qA.2.counterclaim qB.2.claim
                        if sim_score > cutoff then some sim_score else none))).map
                (fun sim_score => (sim_score - cutoff) / (1 - cutoff))))))

/-- Python `max(values)` on a list of floats.  `max([])` raises in Python; the
only call site guards with `if normalized_values:`, so the `[]` case below is
never reached (it returns `0` as an arbitrary value). -/
def pyMax : List ℚ → ℚ
  | [] => 0
  | v :: vs => vs.foldl max v

/-- The update applied per value by the shadow-coverage loop (line 592):
`shadow_coverage + (value * (1.0 - cutoff)) * (1 - shadow_coverage)`. -/
def shadowStep (cutoff shadow_coverage value : ℚ) : ℚ :=
  shadow_coverage + (value * (1 - cutoff)) * (1 - shadow_coverage)

/-- The per-cluster fold of `get_cluster_shadow_coverage` (lines 588-594):
seed with the largest value, then for every element of the list *not equal to
the maximum* apply `shadowStep`.  Note the loop's guard `value != highest`
skips every occurrence equal to the maximum, not just one seed
occurrence. -/
def codeShadow (normalized_values : List ℚ) (cutoff : ℚ) : ℚ :=
  let highest := pyMax normalized_values
  normalized_values.foldl
    (fun shadow_coverage value =>
      if value ≠ highest then shadowStep cutoff shadow_coverage value
      else shadow_coverage)
    highest

/-- Modelled from the spec: the reference fold of §4.5, stated for comparison
with `codeShadow` (refinement claim).  The spec seeds with
`values_sorted_desc[0]` and then folds `shadowStep` over *all* remaining
positions `values_sorted_desc[1:]` of the descending sort; the empty list
yields 0. -/
def specFold (modulatorValues : List ℚ) (cutoff : ℚ) : ℚ :=
  match modulatorValues.insertionSort (· ≥ ·) with
  | [] => 0
  | h :: t => t.foldl (shadowStep cutoff) h

/-- `DebateSimulator.get_cluster_shadow_coverage` (lines 580-605).  Every user
of the modulator map gets an entry; a cluster gets a coverage entry only when
its modulator list is non-empty (the `if normalized_values:` guard), in which
case the entry is the `codeShadow` fold of the list. -/
def get_cluster_shadow_coverage (cluster_weight_modulator : List (String × List (Nat × List ℚ)))
    (cutoff : ℚ) : List (String × List (Nat × ℚ)) :=
  cluster_weight_modulator.map
    (fun p =>
      (p.1,
        p.2.filterMap
          (fun q =>
            if q.2 ≠ [] then some (q.1, codeShadow q.2 cutoff) else none)))

/-- The addressed-branch contribution of `gather_final_results` (line 538):
`(1 - modulator) * persuasiveness_score`. -/
def addressed_score (modulator persuasiveness_score : ℚ) : ℚ :=
  (1 - modulator) * persuasiveness_score

/-- The unaddressed-branch contribution of `gather_final_results` (line 559):
`persuasiveness_score * unaddressed_score_multiplier`. -/
def unaddressed_score (persuasiveness_score unaddressed_score_multiplier : ℚ) : ℚ :=
  persuasiveness_score * unaddressed_score_multiplier

/-- One entry of a `user_result["clusters"]` list (lines 541-545, 562-566):
`{"cluster": ..., "type": "addressed" | "unaddressed", "score": ...}`. -/
structure ClusterEntryR where
  cluster : Nat
  ctype : String
  score : ℚ
deriving DecidableEq, Repr

/-- One `user_result` of `gather_final_results` (lines 531, 574):
`{"user": ..., "clusters": [...], "total_score": ...}`. -/
structure UserResult where
  user : String
  clusters : List ClusterEntryR
  total_score : ℚ
deriving DecidableEq, Repr

/-- The 4-tuple returned by `gather_final_results` (line 578). -/
structure GatherResult where
  aggregated_scores : List (String × ℚ)
  addressed_clusters : List (String × List (Nat × ℚ))
  unaddressed_clusters : List (String × List (Nat × ℚ))
  results : List UserResult
deriving DecidableEq, Repr

/-- The body of the `try` blocks of `gather_final_results` up to the float
conversion (lines 535-537 and 557-558):
`float(json.loads(wepcc['persuasiveness_justification'])['content']['persuasiveness_score'])`. -/
def scoreOf (persuasiveness_justification : JsonStr) : Except PyErr ℚ :=
  match json_loads persuasiveness_justification with
  | .error e => .error e
  | .ok persuasiveness_object =>
    match getItem persuasiveness_object "content" with
    | .error e => .error e
    | .ok content =>
      match getItem content "persuasiveness_score" with
      | .error e => .error e
      | .ok score => pyFloat score

/-- The whole expression scored inside the addressed `try` block
(lines 535-537): first the two dict subscripts
`wepcc_results[user_id][cluster_id]` (which can raise `KeyError`), then
`scoreOf` on the justification. -/
def itemScore (wepcc_results : WepccMap) (user_id : String) (cluster_id : Nat) :
    Except PyErr ℚ :=
  match wepcc_results.lookup user_id with
  | none => .error PyErr.keyError
  | some user_wepcc =>
    match user_wepcc.lookup cluster_id with
    | none => .error PyErr.keyError
    | some wepcc => scoreOf wepcc.persuasiveness_justification

/-- The addressed-clusters loop of `gather_final_results` (lines 533-551),
accumulating `total_score`, `addressed_clusters[user_id]` and
`user_result["clusters"]`.  Each iteration's `try` block is `itemScore`; an
exception is caught iff it is `json.JSONDecodeError` (the cluster is then
skipped); any other exception propagates. -/
def addressedLoop (wepcc_results : WepccMap) (user_id : String)
    (total : ℚ) (addressed : List (Nat × ℚ)) (entries : List ClusterEntryR) :
    List (Nat × ℚ) → Except PyErr (ℚ × List (Nat × ℚ) × List ClusterEntryR)
  | [] => .ok (total, addressed, entries)
  | (cluster_id, modulator) :: rest =>
      match itemScore wepcc_results user_id cluster_id with
      | .ok persuasiveness_score =>
          let s := addressed_score modulator persuasiveness_score
          addressedLoop wepcc_results user_id (total + s)
            (addressed ++ [(cluster_id, s)])
            (entries ++ [⟨cluster_id, "addressed", s⟩]) rest
      | .error .jsonDecodeError =>
          addressedLoop wepcc_results user_id total addressed entries rest
      | .error e => .error e

/-- The unaddressed-clusters loop of `gather_final_results` (lines 554-571):
iterates over `wepcc_results[user_id].items()`, scoring only the clusters with
no entry in `weight_mods`; again only `json.JSONDecodeError` is caught. -/
def unaddressedLoop (weight_mods : List (Nat × ℚ))
    (unaddressed_score_multiplier : ℚ)
    (total : ℚ) (unaddressed : List (Nat × ℚ)) (entries : List ClusterEntryR) :
    List (Nat × Wepcc) → Except PyErr (ℚ × List (Nat × ℚ) × List ClusterEntryR)
  | [] => .ok (total, unaddressed, entries)
  | (cluster_id, wepcc) :: rest =>
      if (weight_mods.lookup cluster_id).isSome then
        unaddressedLoop weight_mods unaddressed_score_multiplier
          total unaddressed entries rest
      else
        match scoreOf wepcc.persuasiveness_justification with
        | .ok persuasiveness_score =>
            let s := unaddressed_score persuasiveness_score unaddressed_score_multiplier
            unaddressedLoop weight_mods unaddressed_score_multiplier (total + s)
              (unaddressed ++ [(cluster_id, s)])
              (entries ++ [⟨cluster_id, "unaddressed", s⟩]) rest
        | .error .jsonDecodeError =>
            unaddressedLoop weight_mods unaddressed_score_multiplier
              total unaddressed entries rest
        | .error e => .error e

/-- The per-user body of the outer loop of `gather_final_results`
(lines 526-576): the addressed loop over `weight_mods.items()`, then the
unaddressed loop over `wepcc_results[user_id].items()` (line 554 subscripts
`wepcc_results[user_id]` outside any `try`, so a missing user raises
`KeyError`). -/
def gatherUser (wepcc_results : WepccMap) (unaddressed_score_multiplier : ℚ)
    (user_id : String) (weight_mods : List (Nat × ℚ)) :
    Except PyErr (ℚ × List (Nat × ℚ) × List (Nat × ℚ) × List ClusterEntryR) :=
  match addressedLoop wepcc_results user_id 0 [] [] weight_mods with
  | .error e => .error e
  | .ok (total, addressed, entries) =>
    match wepcc_results.lookup user_id with
    | none => .error PyErr.keyError
    | some user_wepcc =>
      match unaddressedLoop weight_mods unaddressed_score_multiplier total []
          entries user_wepcc with
      | .error e => .error e
      | .ok (total2, unaddressed, entries2) =>
          .ok (total2, addressed, unaddressed, entries2)

/-- `DebateSimulator.gather_final_results` (lines 519-578), iterating the
per-user body over `cluster_shadow_coverage.items()` and collecting the four
outputs in iteration order. -/
def gather_final_results (cluster_shadow_coverage : List (String × List (Nat × ℚ)))
    (wepcc_results : WepccMap) (unaddressed_score_multiplier : ℚ) :
    Except PyErr GatherResult :=
  go {aggregated_scores := [], addressed_clusters := [],
      unaddressed_clusters := [], results := []} cluster_shadow_coverage
where
  /-- The outer user loop, threading the accumulated outputs. -/
  go (acc : GatherResult) :
      List (String × List (Nat × ℚ)) → Except PyErr GatherResult
    | [] => .ok acc
    | (user_id, weight_mods) :: rest =>
        match gatherUser wepcc_results unaddressed_score_multiplier user_id
            weight_mods with
        | .error e => .error e
        | .ok (total, addressed, unaddressed, entries) =>
            go
              {aggregated_scores := acc.aggregated_scores ++ [(user_id, total)],
               addressed_clusters := acc.addressed_clusters ++ [(user_id, addressed)],
               unaddressed_clusters := acc.unaddressed_clusters ++ [(user_id, unaddressed)],
               results := acc.results ++
                 [{user := user_id, clusters := entries, total_score := total}]}
              rest

/-- A broadcast event sent to the session's websocket group.  The constructors
are the event vocabulary of spec §6; the code of `check_and_reflect` only ever
constructs the first three.  For `wepcc_result` the source (line 488) passes
`cluster.cluster_hash` for the `generation_nonce` parameter of
`report_wepcc_result`, so that event's `generation` field carries the cluster
hash, not the task's nonce. -/
inductive Event where
  | initial_clusters (clusters : ClusterMap) (generation : String) : Event
  | updated_clusters (clusters : ClusterMap) (generation : String) : Event
  | wepcc_result (generation : String) (user_id : String) (cluster_id : Nat)
      (cluster_hash : String) : Event
  | final_result (generation : String) : Event

/-- Whether an event is a `final_result` event. -/
def Event.isFinalResult : Event → Bool
  | .final_result _ => true
  | _ => false

/-- The session-scoped shared state (`AppState`) as touched by the debate
pipeline.  Keyed entries model `get_value`/`set_value` on their full string
keys (`"message_history_" ++ session_id` etc.); the four global fields model
`set_state("wepcc_results", ...)` etc. (lines 449-452), which use fixed keys
with no session suffix.  `none` means the key has never been written. -/
structure AppState where
  history : List (String × List JVal)
  prior_ontology : List (String × List String)
  previous_clusters : List (String × ClusterMap)
  wepcc_results : Option WepccMap
  aggregated_scores : Option (List (String × ℚ))
  addressed_clusters : Option (List (String × List (Nat × ℚ)))
  unaddressed_clusters : Option (List (String × List (Nat × ℚ)))

/-- `app_state.get_value(key, [])` for the message-history store. -/
def AppState.get_history (st : AppState) (key : String) : List JVal :=
  (st.history.lookup key).getD []

/-- `app_state.get_value(key, [])` for the prior-ontology store. -/
def AppState.get_prior_ontology (st : AppState) (key : String) : List String :=
  (st.prior_ontology.lookup key).getD []

/-- `app_state.get_value(key, {})` for the previous-clusters store. -/
def AppState.get_previous_clusters (st : AppState) (key : String) : ClusterMap :=
  (st.previous_clusters.lookup key).getD []

/-- `app_state.set_value(key, v)`: overwrite the binding, or append it. -/
def setKey {α : Type} (store : List (String × α)) (key : String) (v : α) :
    List (String × α) :=
  if (store.lookup key).isSome then
    store.map (fun p => if p.1 = key then (p.1, v) else p)
  else
    store ++ [(key, v)]

/-- A task of the controller's queue (lines 172-201). -/
inductive Task where
  | reset : Task
  | check_and_reflect (session_id user_id generation_nonce message_id message : String) : Task
  | broadcast : Task

/-- The mutable state of the `DebateSimulator` singleton that the claims are
about: the session store, the task queue and `self.current_generation`. -/
structure DebateState where
  app_state : AppState
  task_queue : List Task
  current_generation : Option String

/-- `DebateSimulator.check_generation_halting` (lines 339-343): returns true
iff `self.current_generation is not None` and differs from the task's nonce.
`current` is the value of `self.current_generation` observed at the moment of
the call (it is written concurrently by the consumer thread). -/
def check_generation_halting (current : Option String) (generation_nonce : String) : Bool :=
  match current with
  | some g => g ≠ generation_nonce
  | none => false

/-- `DebateSimulator.reset_processing_queue` (lines 184-191): drain the task
queue without executing anything and clear `self.current_generation`. -/
def reset_processing_queue (st : DebateState) : DebateState :=
  { st with task_queue := [], current_generation := none }

/-- `DebateSimulator.wepcc_cluster` (lines 469-490), run for each changed
cluster: call the external `fetch_argument_definition` on the dynamic
`cluster.sentences` field and record the WEPCC 5-tuple.  The callback
`report_wepcc_result` broadcasts a `wepcc_result` event and then runs a
halting check; in the source the callback is `async` and invoked without
`await` (line 488) and its internal `return` exits only the callback, so
neither outcome of that check can stop `wepcc_cluster` or the surrounding
task.  The check consumes one observation of `self.current_generation` per
cluster (indices `k0`, `k0+1`, ...); its argument is `cluster.cluster_hash`,
because line 488 passes the hash where the callback expects the nonce.
`wepcc_step` is the body run for one cluster. -/
def wepcc_step (cl : Collab) (env : ℕ → Option String) (user_id : String)
    (s : List (Nat × Wepcc) × List Event × ℕ) (q : Nat × Cluster) :
    List (Nat × Wepcc) × List Event × ℕ :=
  let w := cl.fetch_argument_definition q.2.sentences
  let ev := Event.wepcc_result q.2.cluster_hash user_id q.1 q.2.cluster_hash
  let _halt := check_generation_halting (env s.2.2) q.2.cluster_hash
  (s.1 ++ [(q.1, w)], s.2.1 ++ [ev], s.2.2 + 1)

def wepcc_cluster (cl : Collab) (env : ℕ → Option String) (k0 : ℕ)
    (clusters : ClusterMap) : WepccMap × List Event × ℕ :=
  go [] [] k0 clusters
where
  /-- Iterate one user's clusters, then the remaining users. -/
  go (acc : WepccMap) (events : List Event) (k : ℕ) :
      ClusterMap → WepccMap × List Event × ℕ
    | [] => (acc, events, k)
    | (user_id, user_clusters) :: rest =>
        let step := user_clusters.foldl (wepcc_step cl env user_id) ([], events, k)
        go (acc ++ [(user_id, step.1)]) step.2.1 step.2.2 rest

/-- The outcome of one `check_and_reflect` task: the session state as left
behind, the events broadcast (in order), the value returned by the Python
function (`none` for every early `return`), and the exception that escaped,
if any.  Side effects performed before an exception persist. -/
structure CRResult where
  state : AppState
  events : List Event
  result : Option (List UserResult)
  error : Option PyErr

/-- `DebateSimulator.check_and_reflect` (lines 345-456), the generation task.

`env k` is the value of `self.current_generation` observed at the `k`-th
halting check the task performs (checks are numbered in execution order:
`0` after the `initial_clusters` broadcast, `1` after the `updated_clusters`
broadcast, `2, 3, ...` inside the per-cluster wepcc callbacks).  The task and
the wepcc callback are `async` functions invoked without `await` in the
source (lines 197, 488); the model gives them the charitable semantics of
actually running, which is what the spec describes, and models faithfully
that the callback's `return` cannot halt the task.

Control flow mirrored from the source:
* halting check 0 after the `initial_clusters` broadcast (line 382);
* `previous_clusters` is committed (line 388) *before* the
  `updated_clusters` broadcast and halting check 1 (lines 391-398);
* the wepcc stage runs with no effective checkpoint;
* the insufficient-data guard (line 418) returns without a score;
* cross-match, fold and aggregation run with no further halting check, and
  the four final stores (lines 449-452) are unconditional. -/
def check_and_reflect (cl : Collab) (env : ℕ → Option String)
    (session_id _user_id generation_nonce _message_id _message : String)
    (st : AppState) : CRResult :=
  let message_history := st.get_history ("message_history_" ++ session_id)
  match aggregate_user_messages message_history with
  | .error e => {state := st, events := [], result := none, error := some e}
  | .ok user_messages =>
    let clusters := cluster_messages cl user_messages generation_nonce session_id
    let ev1 := Event.initial_clusters clusters generation_nonce
    if check_generation_halting (env 0) generation_nonce then
      {state := st, events := [ev1], result := none, error := none}
    else
      let previous_clusters :=
        st.get_previous_clusters ("previous_clusters_" ++ session_id)
      let updated_clusters := incremental_clustering clusters previous_clusters
      let pcStore := setKey st.previous_clusters ("previous_clusters_" ++ session_id) clusters
      let st1 := { st with previous_clusters := pcStore }
      let ev2 := Event.updated_clusters updated_clusters generation_nonce
      if check_generation_halting (env 1) generation_nonce then
        {state := st1, events := [ev1, ev2], result := none, error := none}
      else
        let (wepcc_results, wepccEvents, _) :=
          wepcc_cluster cl env 2 updated_clusters
        let events := [ev1, ev2] ++ wepccEvents
        if clusters.length < 2 ∨ clusters.any (fun p => p.2.length < 1) then
          {state := st1, events := events, result := none, error := none}
        else
          let cutoff : ℚ := 1/2
          let unaddressed_score_multiplier : ℚ := 5/2
          let cluster_weight_modulator :=
            get_cluster_weight_modulator cl wepcc_results cutoff
          let cluster_shadow_coverage :=
            get_cluster_shadow_coverage cluster_weight_modulator cutoff
          match gather_final_results cluster_shadow_coverage wepcc_results
              unaddressed_score_multiplier with
          | .error e =>
              {state := st1, events := events, result := none, error := some e}
          | .ok r =>
              {state :=
                { st1 with
                  wepcc_results := some wepcc_results
                  aggregated_scores := some r.aggregated_scores
                  addressed_clusters := some r.addressed_clusters
                  unaddressed_clusters := some r.unaddressed_clusters }
               events := events
               result := some r.results
               error := none}

/-- `DebateSimulator.integrate` (lines 241-303).  External pieces passed in:
`decode` is `jwt.decode` on the caller's token, yielding the `user_id` /
`session_id` claims with `.get(..., "")` defaults, or `none` when the token is
invalid; `message_id` is the fresh `uuid4` (with `use_neo4j = False`,
`has_message_id` is constantly false and the collision loop never re-rolls);
`current_ontology` is the result of the external `get_ontology` call;
`generation_nonce` is the fresh nonce.  On an invalid token or empty ids the
call returns `none` and the state is untouched.  Otherwise it appends the
ontology (reading key `"prior_ontology_" ++ sid` but writing key
`"prior_ontology" ++ sid ++ "_"`, as the source does), appends the *bare
message string* to the session's message history, and enqueues a `reset` task
(via `stop_all_reflect_tasks`) followed by the new generation task. -/
def integrate (decode : String → Option (String × String)) (token : String)
    (message : String) (message_id : String) (current_ontology : String)
    (generation_nonce : String) (st : DebateState) :
    Option String × DebateState :=
  match decode token with
  | none => (none, st)
  | some (user_id, session_id) =>
    if user_id = "" ∨ session_id = "" then (none, st)
    else
      let message_history := st.app_state.get_history ("message_history_" ++ session_id)
      let prior_ontology := st.app_state.get_prior_ontology ("prior_ontology_" ++ session_id)
      let app1 := { st.app_state with
        prior_ontology := setKey st.app_state.prior_ontology
          ("prior_ontology" ++ session_id ++ "_") (prior_ontology ++ [current_ontology])
        history := setKey st.app_state.history
          ("message_history_" ++ session_id) (message_history ++ [JVal.str message]) }
      (some current_ontology,
        { st with
          app_state := app1
          task_queue := st.task_queue ++
            [Task.reset,
             Task.check_and_reflect session_id user_id generation_nonce message_id message] })

/-- A per-item outcome of the `try` blocks of `gather_final_results` is
*locally recoverable* when it either produced a score or raised
`json.JSONDecodeError` (the only exception the `except` clauses catch). -/
def localOk (x : Except PyErr ℚ) : Prop :=
  (∃ q, x = .ok q) ∨ x = .error PyErr.jsonDecodeError

/-- The addressed contributions that survive: one entry per coverage item
whose `itemScore` succeeds, in order. -/
def addressedOk (wepcc_results : WepccMap) (user_id : String)
    (weight_mods : List (Nat × ℚ)) : List (Nat × ℚ) :=
  weight_mods.filterMap
    (fun q =>
      match itemScore wepcc_results user_id q.1 with
      | .ok p => some (q.1, addressed_score q.2 p)
      | .error _ => none)

/-- The `user_result["clusters"]` entries produced by the addressed loop. -/
def entriesAOk (wepcc_results : WepccMap) (user_id : String)
    (weight_mods : List (Nat × ℚ)) : List ClusterEntryR :=
  weight_mods.filterMap
    (fun q =>
      match itemScore wepcc_results user_id q.1 with
      | .ok p => some ⟨q.1, "addressed", addressed_score q.2 p⟩
      | .error _ => none)

/-- The unaddressed contributions that survive: one entry per wepcc cluster of
the user that has no coverage entry and whose justification parses. -/
def unaddressedOk (unaddressed_score_multiplier : ℚ)
    (weight_mods : List (Nat × ℚ)) (user_wepcc : List (Nat × Wepcc)) :
    List (Nat × ℚ) :=
  user_wepcc.filterMap
    (fun q =>
      if (weight_mods.lookup q.1).isSome then none
      else
        match scoreOf q.2.persuasiveness_justification with
        | .ok p => some (q.1, unaddressed_score p unaddressed_score_multiplier)
        | .error _ => none)

/-- The `user_result["clusters"]` entries produced by the unaddressed loop. -/
def entriesUOk (unaddressed_score_multiplier : ℚ)
    (weight_mods : List (Nat × ℚ)) (user_wepcc : List (Nat × Wepcc)) :
    List ClusterEntryR :=
  user_wepcc.filterMap
    (fun q =>
      if (weight_mods.lookup q.1).isSome then none
      else
        match scoreOf q.2.persuasiveness_justification with
        | .ok p => some ⟨q.1, "unaddressed", unaddressed_score p unaddressed_score_multiplier⟩
        | .error _ => none)

/-- A history entry of the shape `aggregate_user_messages` expects:
`{'data': {'user_id': u, 'content': c}}`. -/
def histEntry (u c : String) : JVal :=
  JVal.obj [("data", JVal.obj [("user_id", JVal.str u), ("content", JVal.str c)])]

/-- A well-formed persuasiveness justification: parses to
`{"content": {"persuasiveness_score": q}}`. -/
def goodPJ (q : ℚ) : JsonStr :=
  some (JVal.obj [("content", JVal.obj [("persuasiveness_score", JVal.num q)])])

/-- A wepcc record with a well-formed persuasiveness score of 4/5. -/
def wepccGood : Wepcc :=
  ⟨"w", "e", goodPJ (4/5), "the claim", "the counterclaim"⟩

/-- A concrete collaborator bundle for evaluating the pipeline on closed
inputs: the clustering puts all of a user's messages into one cluster labelled
0, argument extraction always yields `wepccGood`, all similarity scores are 1,
and the hash function is the identity on the dumped JSON (the hash's value is
irrelevant to the properties checked on these inputs). -/
def collabOneCluster : Collab :=
  { cluster_sentences := fun messages => [(0, messages)]
    fetch_argument_definition := fun _ => wepccGood
    sim := fun _ _ => 1
    sha := fun s => s }

/-- A wepcc record whose justification is valid JSON (`1`, a number) but has
no `content` field: `json.loads` succeeds and the subsequent subscript
raises. -/
def wepccBadShape : Wepcc :=
  ⟨"w", "e", some (JVal.num 1), "the claim", "the counterclaim"⟩

/-- A wepcc record whose justification fails JSON parsing
(`json.JSONDecodeError`). -/
def wepccNoParse : Wepcc :=
  ⟨"w", "e", none, "the claim", "the counterclaim"⟩

/-- A `jwt.decode` model that accepts every token as user `alice` in session
`s1`. -/
def decodeAlice : String → Option (String × String) :=
  fun _ => some ("alice", "s1")

/-- An observation schedule for `self.current_generation`: the task with
nonce `N1` sees its own nonce at halting checks 0 and 1, and from
observation 2 on sees `N2`, the nonce of a generation submitted while the
`N1` task was between its second checkpoint and the wepcc stage. -/
def envSuperseded : ℕ → Option String :=
  fun k => if k ≤ 1 then some "N1" else some "N2"

/-- An observation schedule in which every halting check observes
`self.current_generation = None`: the value left behind once a reset task was
processed while the generation was in flight. -/
def envAfterReset : ℕ → Option String :=
  fun _ => none

/-- A concrete cluster for closed instantiations (its field contents are
immaterial). -/
def clusterW : Cluster :=
  Cluster.init (fun s => s) (PyVal.str "cid") (PyVal.strList ["x"]) (PyVal.str "u")
    (PyVal.str "g") (PyVal.str "s")

/-- A one-user one-cluster map holding `clusterW`. -/
def cmW : ClusterMap := [("u", [(0, clusterW)])]

/-- A session store holding a two-user debate history (two messages each) for
session `s1` and nothing else. -/
def stTwoUsers : AppState :=
  { history := [("message_history_s1",
      [histEntry "alice" "a1", histEntry "alice" "a2",
       histEntry "bob" "b1", histEntry "bob" "b2"])]
    prior_ontology := []
    previous_clusters := []
    wepcc_results := none
    aggregated_scores := none
    addressed_clusters := none
    unaddressed_clusters := none }

/-- The wepcc clusters of one user, as looked up by `gather_final_results`
(defaulting to `[]`; only used under hypotheses that the user is bound). -/
def userWepcc (wepcc_results : WepccMap) (user_id : String) : List (Nat × Wepcc) :=
  (wepcc_results.lookup user_id).getD []

/-- The surviving unaddressed contributions of one user of the coverage
map. -/
def unaddressedOkFor (wepcc_results : WepccMap) (unaddressed_score_multiplier : ℚ)
    (user_id : String) (weight_mods : List (Nat × ℚ)) : List (Nat × ℚ) :=
  unaddressedOk unaddressed_score_multiplier weight_mods (userWepcc wepcc_results user_id)

/-- The per-user total over the surviving contributions only. -/
def userTotal (wepcc_results : WepccMap) (unaddressed_score_multiplier : ℚ)
    (user_id : String) (weight_mods : List (Nat × ℚ)) : ℚ :=
  ((addressedOk wepcc_results user_id weight_mods).map Prod.snd).sum +
    ((unaddressedOkFor wepcc_results unaddressed_score_multiplier user_id
        weight_mods).map Prod.snd).sum

/-- The per-user `user_result["clusters"]` list over the surviving
contributions only. -/
def userEntries (wepcc_results : WepccMap) (unaddressed_score_multiplier : ℚ)
    (user_id : String) (weight_mods : List (Nat × ℚ)) : List ClusterEntryR :=
  entriesAOk wepcc_results user_id weight_mods ++
    entriesUOk unaddressed_score_multiplier weight_mods
      (userWepcc wepcc_results user_id)

/-- The cluster object `cluster_messages` builds for `alice` in the two-user
trace (with scrambled constructor arguments, generation `N1`, session
`s1`). -/
def cA : Cluster :=
  Cluster.init (fun s => s) (PyVal.str "alice") (PyVal.str "N1") (PyVal.str "s1")
    (PyVal.nat 0) (PyVal.strList ["a1", "a2"])

/-- The cluster object built for `bob` in the two-user trace. -/
def cB : Cluster :=
  Cluster.init (fun s => s) (PyVal.str "bob") (PyVal.str "N1") (PyVal.str "s1")
    (PyVal.nat 0) (PyVal.strList ["b1", "b2"])

/-- The clustering of the two-user trace. -/
def clustersTwo : ClusterMap := [("alice", [(0, cA)]), ("bob", [(0, cB)])]

/-- The wepcc results of the two-user trace. -/
def wepccTwo : WepccMap := [("alice", [(0, wepccGood)]), ("bob", [(0, wepccGood)])]

/-- The cluster weight modulator of the two-user trace: similarity 1 against
cutoff 1/2 normalizes to 1. -/
def cwmTwo : List (String × List (Nat × List ℚ)) :=
  [("alice", [(0, [1])]), ("bob", [(0, [1])])]

/-- The shadow coverage of the two-user trace. -/
def covTwo : List (String × List (Nat × ℚ)) :=
  [("alice", [(0, 1)]), ("bob", [(0, 1)])]

/-- The full outcome of the two-user `check_and_reflect` trace: both clusters
are fully covered (coverage 1), so both addressed contributions are 0; all
four final stores are written, and the three broadcast kinds are emitted. -/
def crTwo : CRResult :=
  { state :=
      { stTwoUsers with
        previous_clusters := [("previous_clusters_s1", clustersTwo)]
        wepcc_results := some wepccTwo
        aggregated_scores := some [("alice", 0), ("bob", 0)]
        addressed_clusters := some [("alice", [(0, 0)]), ("bob", [(0, 0)])]
        unaddressed_clusters := some [("alice", []), ("bob", [])] }
    events :=
      [Event.initial_clusters clustersTwo "N1",
       Event.updated_clusters clustersTwo "N1",
       Event.wepcc_result cA.cluster_hash "alice" 0 cA.cluster_hash,
       Event.wepcc_result cB.cluster_hash "bob" 0 cB.cluster_hash]
    result := some [⟨"alice", [⟨0, "addressed", 0⟩], 0⟩, ⟨"bob", [⟨0, "addressed", 0⟩], 0⟩]
    error := none }

/-! ## Theorems -/

/-- Looking up the key just consed returns its value. -/
theorem lookup_cons_self {α β : Type} [BEq α] [LawfulBEq α] (k : α) (b : β)
    (l : List (α × β)) : ((k, b) :: l).lookup k = some b := by
  rw [List.lookup, beq_self_eq_true]

/-- Looking up a different key skips the head binding. -/
theorem lookup_cons_ne {α β : Type} [BEq α] [LawfulBEq α] {k a : α} (b : β)
    (l : List (α × β)) (h : k ≠ a) : ((a, b) :: l).lookup k = l.lookup k := by
  rw [List.lookup, show (k == a) = false from beq_eq_false_iff_ne.mpr h]

/-- Lookup through a `map` that preserves keys: the mapped list binds `k` to
the image of the original binding of `k`. -/
theorem lookup_map_keyed {β γ : Type} (g : String × β → String × γ)
    (hkey : ∀ p, (g p).1 = p.1) :
    ∀ (l : List (String × β)) (k : String),
      (l.map g).lookup k = (l.lookup k).map (fun b => (g (k, b)).2)
  | [], _ => rfl
  | (a, b) :: rest, k => by
      rw [List.map_cons]
      by_cases hak : k = a
      · subst hak
        rw [show g (k, b) = (k, (g (k, b)).2) from Prod.ext (hkey (k, b)) rfl,
          lookup_cons_self, lookup_cons_self]
        rfl
      · rw [show g (a, b) = (a, (g (a, b)).2) from Prod.ext (hkey (a, b)) rfl,
          lookup_cons_ne _ _ hak, lookup_cons_ne _ _ hak]
        exact lookup_map_keyed g hkey rest k

/-- C6: for every participant present in the new clustering,
`incremental_clustering` emits a changed set such that: with no previous
clustering for that participant all clusters are changed; otherwise a cluster
is changed iff no previous cluster under the same cluster id has the same
fingerprint; and when every new cluster has a same-id same-fingerprint
previous cluster, the changed set is empty. -/
theorem incremental_clustering_changed_iff
    (clusters previous : ClusterMap) (u : String) (ucs : List (Nat × Cluster))
    (hu : clusters.lookup u = some ucs) :
    ∃ changed, (incremental_clustering clusters previous).lookup u = some changed ∧
      (previous.lookup u = none → changed = ucs) ∧
      (∀ pcs, previous.lookup u = some pcs →
        (∀ cid c, (cid, c) ∈ changed ↔ ((cid, c) ∈ ucs ∧
          ∀ pc, pcs.lookup cid = some pc → c.cluster_hash ≠ pc.cluster_hash)) ∧
        ((∀ q ∈ ucs, ∃ pc, pcs.lookup q.1 = some pc ∧ pc.cluster_hash = q.2.cluster_hash) →
          changed = [])) := by
  have hkey : ∀ p, (incremental_user previous p).1 = p.1 := by
    intro p
    unfold incremental_user
    rcases h : previous.lookup p.1 with _ | prev <;> simp
  unfold incremental_clustering
  rw [lookup_map_keyed _ hkey clusters u, hu]
  refine ⟨(incremental_user previous (u, ucs)).2, rfl, ?_, ?_⟩
  · intro hprev
    unfold incremental_user
    rw [hprev]
  · intro pcs hprev
    unfold incremental_user
    rw [hprev]
    constructor
    · intro cid c
      rw [List.mem_filter]
      constructor
      · rintro ⟨hmem, hpred⟩
        refine ⟨hmem, ?_⟩
        intro pc hpc
        rw [hpc] at hpred
        simpa using hpred
      · rintro ⟨hmem, hne⟩
        refine ⟨hmem, ?_⟩
        rcases hl : pcs.lookup cid with _ | pc
        · rfl
        · simpa using hne pc hl
    · intro hall
      apply List.filter_eq_nil_iff.mpr
      intro q hq
      obtain ⟨pc, hpc, hhash⟩ := hall q hq
      rw [hpc]
      simp [hhash]

/-- Witness for C6: a participant whose single cluster keeps its fingerprint
has an empty changed set. -/
theorem incremental_clustering_changed_iff_witness :
    ∃ changed, (incremental_clustering cmW cmW).lookup "u" = some changed ∧
      (cmW.lookup "u" = none → changed = [(0, clusterW)]) ∧
      (∀ pcs, cmW.lookup "u" = some pcs →
        (∀ cid c, (cid, c) ∈ changed ↔ ((cid, c) ∈ [(0, clusterW)] ∧
          ∀ pc, pcs.lookup cid = some pc → c.cluster_hash ≠ pc.cluster_hash)) ∧
        ((∀ q ∈ [(0, clusterW)],
            ∃ pc, pcs.lookup q.1 = some pc ∧ pc.cluster_hash = q.2.cluster_hash) →
          changed = [])) :=
  incremental_clustering_changed_iff cmW cmW "u" [(0, clusterW)] (by decide)

/-- C10: for every sentence set and every permutation of it the cluster
fingerprint is identical — `generate_hash` hashes the lexicographically
sorted sentence set, so it is invariant under the order in which the same
sentences arrive, whatever the (external) hash function is. -/
theorem generate_hash_perm_invariant (sha : String → String) (S T : List String)
    (h : List.Perm T S) :
    Cluster.generate_hash sha (PyVal.strList T)
      = Cluster.generate_hash sha (PyVal.strList S) := by
  have hs : T.insertionSort (· ≤ ·) = S.insertionSort (· ≤ ·) :=
    List.eq_of_perm_of_sorted
      ((List.perm_insertionSort _ T).trans (h.trans (List.perm_insertionSort _ S).symm))
      (List.sorted_insertionSort _ T) (List.sorted_insertionSort _ S)
  unfold Cluster.generate_hash
  simp only [pySorted]
  rw [hs]

/-- Witness for C10 at a concrete permutation. -/
theorem generate_hash_perm_invariant_witness :
    Cluster.generate_hash (fun s => s) (PyVal.strList ["b", "a"])
      = Cluster.generate_hash (fun s => s) (PyVal.strList ["a", "b"]) :=
  generate_hash_perm_invariant (fun s => s) ["a", "b"] ["b", "a"]
    (List.Perm.swap "a" "b" [])

/-- C9 counterexample: at persuasiveness score `p = 0` the unaddressed
contribution `p * m` equals — does not strictly exceed — the addressed
contribution `(1 - c) * p`, so the claim's strict inequality fails for the
score `p = 0` (with the code's own multiplier 5/2 and a coverage of 1/2). -/
theorem unaddressed_not_above_addressed_at_zero :
    unaddressed_score 0 (5/2) = addressed_score (1/2) 0 ∧
    ¬ (addressed_score (1/2) 0 < unaddressed_score 0 (5/2)) := by
  constructor <;> norm_num [addressed_score, unaddressed_score]

/-- C9 amended: for every *positive* persuasiveness score `p`, every
multiplier `m > 1` and every coverage `c > 0`, the unaddressed contribution
`p * m` strictly exceeds the addressed contribution `(1 - c) * p`. -/
theorem unaddressed_exceeds_addressed (p m c : ℚ) (hp : 0 < p) (hm : 1 < m)
    (hc : 0 < c) : addressed_score c p < unaddressed_score p m := by
  unfold addressed_score unaddressed_score
  nlinarith

/-- Witness for C9 at `p = 4/5`, `m = 5/2`, `c = 1/2`. -/
theorem unaddressed_exceeds_addressed_witness :
    addressed_score (1/2) (4/5) < unaddressed_score (4/5) (5/2) :=
  unaddressed_exceeds_addressed (4/5) (5/2) (1/2) (by norm_num) (by norm_num)
    (by norm_num)

/-- C2: `cluster_messages` calls `Cluster(user_id, generation, session_id,
cluster_id, cluster_sentences)` against the parameter list `(cluster_id,
sentences, user_id, generation, session_id)`, so for a participant `alice`
with two grouped messages the produced cluster's owning-user field holds the
*session id*, its sentence set holds the *generation nonce*, its cluster id
holds the *participant id*, its generation holds the *cluster label* and its
session field holds the *sentences* — not the assignment the claim states. -/
theorem cluster_messages_scrambles_fields :
    ((cluster_messages collabOneCluster [("alice", ["m1", "m2"])] "g1" "s1").lookup
          "alice").map
        (fun ucs => (ucs.lookup 0).map (fun c =>
          (c.user_id, c.sentences, c.cluster_id, c.generation, c.session_id)))
      = some (some (PyVal.str "s1", PyVal.str "g1", PyVal.str "alice", PyVal.nat 0,
          PyVal.strList ["m1", "m2"])) ∧
    PyVal.str "s1" ≠ PyVal.str "alice" ∧
    PyVal.str "g1" ≠ PyVal.strList ["m1", "m2"] := by
  refine ⟨by decide, by decide, by decide⟩

/-- The shadow-coverage update commutes with itself: folding two values in
either order gives the same coverage (each step scales the uncovered
remainder multiplicatively). -/
theorem shadowStep_right_comm (c s x y : ℚ) :
    shadowStep c (shadowStep c s x) y = shadowStep c (shadowStep c s y) x := by
  unfold shadowStep
  ring

/-- The loop of `codeShadow` equals a clean `shadowStep` fold over the values
different from the skipped maximum. -/
theorem foldl_skip (M c : ℚ) (l : List ℚ) : ∀ s : ℚ,
    l.foldl (fun sc v => if v ≠ M then shadowStep c sc v else sc) s
      = (l.filter (fun v => v ≠ M)).foldl (shadowStep c) s := by
  induction l with
  | nil => intro s; rfl
  | cons v t ih =>
      intro s
      rw [List.foldl_cons, List.filter_cons]
      by_cases hv : v = M
      · rw [if_neg (by simp [hv]), if_neg (by simp [hv])]
        exact ih s
      · rw [if_pos (by simp [hv]), if_pos (by simp [hv]), List.foldl_cons]
        exact ih (shadowStep c s v)

/-- `foldl max` either returns the seed or a member of the list. -/
theorem foldl_max_choice : ∀ (vs : List ℚ) (a : ℚ),
    vs.foldl max a = a ∨ vs.foldl max a ∈ vs
  | [], _ => Or.inl rfl
  | v :: t, a => by
      rw [List.foldl_cons]
      rcases foldl_max_choice t (max a v) with h | h
      · rcases max_choice a v with h2 | h2
        · exact Or.inl (h.trans h2)
        · exact Or.inr (by rw [h, h2]; exact List.mem_cons_self v t)
      · exact Or.inr (List.mem_cons_of_mem v h)

/-- The seed is below `foldl max`. -/
theorem le_foldl_max : ∀ (vs : List ℚ) (a : ℚ), a ≤ vs.foldl max a
  | [], _ => le_refl _
  | v :: t, a => le_trans (le_max_left a v) (le_foldl_max t (max a v))

/-- Every member is below `foldl max`. -/
theorem mem_le_foldl_max : ∀ (vs : List ℚ) (a x : ℚ), x ∈ vs → x ≤ vs.foldl max a
  | [], _, x, hx => absurd hx (List.not_mem_nil x)
  | v :: t, a, x, hx => by
      rw [List.foldl_cons]
      rcases List.mem_cons.mp hx with h | h
      · subst h
        exact le_trans (le_max_right a x) (le_foldl_max t _)
      · exact mem_le_foldl_max t _ x h

/-- `pyMax` of a non-empty list is a member of the list. -/
theorem pyMax_mem : ∀ (l : List ℚ), l ≠ [] → pyMax l ∈ l
  | [], h => absurd rfl h
  | v :: t, _ => by
      show List.foldl max v t ∈ v :: t
      rcases foldl_max_choice t v with h2 | h2
      · rw [h2]
        exact List.mem_cons_self v t
      · exact List.mem_cons_of_mem v h2

/-- `pyMax` bounds every member of the list. -/
theorem le_pyMax : ∀ (l : List ℚ) (x : ℚ), x ∈ l → x ≤ pyMax l
  | [], x, hx => absurd hx (List.not_mem_nil x)
  | v :: t, x, hx => by
      show x ≤ List.foldl max v t
      rcases List.mem_cons.mp hx with h | h
      · subst h
        exact le_foldl_max t x
      · exact mem_le_foldl_max t v x h

/-- The descending insertion sort of a non-empty list starts with the
maximum, and its tail is a permutation of the list minus one occurrence of
the maximum. -/
theorem insertionSort_ge_max_head (l : List ℚ) (h : l ≠ []) :
    ∃ t, l.insertionSort (· ≥ ·) = pyMax l :: t ∧
      List.Perm t (l.erase (pyMax l)) := by
  rcases hs : l.insertionSort (· ≥ ·) with _ | ⟨a, t⟩
  · exact absurd ((hs ▸ List.perm_insertionSort (· ≥ ·) l).symm.eq_nil) h
  · have hperm : List.Perm (a :: t) l := hs ▸ List.perm_insertionSort (· ≥ ·) l
    have hsorted : List.Sorted (· ≥ ·) (a :: t) := hs ▸ List.sorted_insertionSort _ l
    have ha_mem : a ∈ l := hperm.mem_iff.mp (List.mem_cons_self a t)
    have hge : pyMax l ≤ a := by
      rcases List.mem_cons.mp (hperm.mem_iff.mpr (pyMax_mem l h)) with h2 | h2
      · exact le_of_eq h2
      · exact List.rel_of_sorted_cons hsorted _ h2
    have ha : a = pyMax l := le_antisymm (le_pyMax l a ha_mem) hge
    refine ⟨t, by rw [ha], ?_⟩
    exact (List.cons_perm_iff_perm_erase.mp (ha ▸ hperm)).2

/-- When the maximum occurs exactly once, removing one occurrence and
filtering out all occurrences coincide up to permutation. -/
theorem erase_perm_filter_ne (l : List ℚ) (a : ℚ) (h : l.count a = 1) :
    List.Perm (l.erase a) (l.filter (fun v => v ≠ a)) := by
  apply List.perm_iff_count.mpr
  intro b
  rw [List.count_erase]
  by_cases hba : b = a
  · subst hba
    have hnmem : b ∉ l.filter (fun v => decide (v ≠ b)) := by simp
    rw [List.count_eq_zero.mpr hnmem, h]
    simp
  · rw [List.count_filter (by simp [hba]), if_neg (by simp [Ne.symm hba])]
    simp

/-- C3 counterexample: on the modulator list `[1/2, 1/2]` (duplicated
maximum) with cutoff `1/2`, the coverage computed by
`get_cluster_shadow_coverage` is `1/2`, while the spec's reference fold gives
`5/8`: the code's `value != highest` guard skips *both* occurrences of the
maximum, the spec's `values_sorted_desc[1:]` skips only the seed. -/
theorem shadow_fold_duplicate_max_diverges :
    get_cluster_shadow_coverage [("u", [(0, [1/2, 1/2])])] (1/2)
        = [("u", [(0, 1/2)])] ∧
    specFold [1/2, 1/2] (1/2) = 5/8 ∧ ((1 : ℚ)/2) ≠ 5/8 := by
  refine ⟨?_, ?_, by norm_num⟩
  · rw [show get_cluster_shadow_coverage [("u", [(0, [1/2, 1/2])])] (1/2)
          = [("u", [(0, codeShadow [1/2, 1/2] (1/2))])] from rfl]
    norm_num [codeShadow, pyMax, shadowStep, List.foldl_cons, List.foldl_nil, max_self]
  · norm_num [specFold, List.insertionSort, List.orderedInsert, shadowStep]

/-- C3 amended: whenever the maximum modulator value occurs exactly once in
the list, the code's fold equals the spec's reference fold, for every cutoff
(the fold step is order-insensitive because it scales the uncovered remainder
multiplicatively). -/
theorem shadow_fold_eq_spec_of_unique_max (values : List ℚ) (cutoff : ℚ)
    (h : values.count (pyMax values) = 1) :
    codeShadow values cutoff = specFold values cutoff := by
  have hne : values ≠ [] := by
    intro h0
    rw [h0] at h
    simp at h
  obtain ⟨t, hsort, hperm⟩ := insertionSort_ge_max_head values hne
  have hp : List.Perm (values.filter (fun v => v ≠ pyMax values)) t :=
    ((erase_perm_filter_ne values (pyMax values) h).symm).trans hperm.symm
  have hstep : ∀ (x : ℚ), x ∈ values.filter (fun v => v ≠ pyMax values) →
      ∀ (y : ℚ), y ∈ values.filter (fun v => v ≠ pyMax values) →
      ∀ (z : ℚ), shadowStep cutoff (shadowStep cutoff z x) y
        = shadowStep cutoff (shadowStep cutoff z y) x :=
    fun x _ y _ z => shadowStep_right_comm cutoff z x y
  simp only [codeShadow, specFold, hsort]
  rw [foldl_skip]
  exact hp.foldl_eq' hstep _

/-- Witness for C3 at `values = [2, 1]`, `cutoff = 1/2` (unique maximum). -/
theorem shadow_fold_eq_spec_of_unique_max_witness :
    codeShadow [2, 1] (1/2) = specFold [2, 1] (1/2) :=
  shadow_fold_eq_spec_of_unique_max [2, 1] (1/2)
    (by norm_num [pyMax, List.count_cons, List.count_nil])

/-- The shadow fold's loop keeps the coverage in `[0,1]` when it starts
there and every value lies in `(0,1]` with `0 ≤ cutoff < 1`. -/
theorem foldl_shadow_bounds (M c : ℚ) (hc0 : 0 ≤ c) (hc1 : c < 1) :
    ∀ (l : List ℚ) (s : ℚ), 0 ≤ s → s ≤ 1 → (∀ v ∈ l, 0 < v ∧ v ≤ 1) →
      0 ≤ l.foldl (fun sc v => if v ≠ M then shadowStep c sc v else sc) s ∧
      l.foldl (fun sc v => if v ≠ M then shadowStep c sc v else sc) s ≤ 1
  | [], s, h0, h1, _ => ⟨h0, h1⟩
  | v :: t, s, h0, h1, hall => by
      rw [List.foldl_cons]
      by_cases hv : v = M
      · rw [if_neg (by simp [hv])]
        exact foldl_shadow_bounds M c hc0 hc1 t s h0 h1
          (fun x hx => hall x (List.mem_cons_of_mem _ hx))
      · rw [if_pos (by simp [hv])]
        have hv2 := hall v (List.mem_cons_self v t)
        have hk0 : 0 ≤ v * (1 - c) := mul_nonneg (le_of_lt hv2.1) (by linarith)
        have hk1 : v * (1 - c) ≤ 1 := by nlinarith [hv2.1, hv2.2]
        have he : 1 - shadowStep c s v = (1 - s) * (1 - v * (1 - c)) := by
          unfold shadowStep
          ring
        have hs0 : 0 ≤ shadowStep c s v := by
          have := mul_nonneg hk0 (by linarith : (0 : ℚ) ≤ 1 - s)
          unfold shadowStep
          linarith
        have hs1 : shadowStep c s v ≤ 1 := by
          have := mul_nonneg (by linarith : (0 : ℚ) ≤ 1 - s)
            (by linarith : (0 : ℚ) ≤ 1 - v * (1 - c))
          linarith [he ▸ this]
        exact foldl_shadow_bounds M c hc0 hc1 t _ hs0 hs1
          (fun x hx => hall x (List.mem_cons_of_mem _ hx))

/-- A key absent from the keys of an association list is not bound. -/
theorem lookup_eq_none_of_not_mem_keys {α β : Type} [BEq α] [LawfulBEq α] :
    ∀ (l : List (α × β)) (a : α), a ∉ l.map Prod.fst → l.lookup a = none
  | [], _, _ => rfl
  | (k, b) :: rest, a, h => by
      have hka : a ≠ k := by
        intro he
        exact h (by rw [List.map_cons, he]; exact List.mem_cons_self k _)
      rw [lookup_cons_ne _ _ hka]
      exact lookup_eq_none_of_not_mem_keys rest a
        (fun hm => h (by rw [List.map_cons]; exact List.mem_cons_of_mem _ hm))

/-- The keys of a guarded `filterMap` are among the original keys. -/
theorem keys_filterMap_guard_subset {β γ : Type} (P : β → Prop) [DecidablePred P]
    (h : β → γ) :
    ∀ (l : List (Nat × β)) (x : Nat),
      x ∈ (l.filterMap (fun q => if P q.2 then some (q.1, h q.2) else none)).map
          Prod.fst →
      x ∈ l.map Prod.fst
  | [], _, hx => by simp at hx
  | (k, b) :: rest, x, hx => by
      rw [List.filterMap_cons] at hx
      by_cases hp : P b
      · rw [if_pos hp, List.map_cons] at hx
        rcases List.mem_cons.mp hx with h1 | h1
        · rw [List.map_cons, h1]
          exact List.mem_cons_self k _
        · exact List.mem_cons_of_mem _ (keys_filterMap_guard_subset P h rest x h1)
      · rw [if_neg hp] at hx
        exact List.mem_cons_of_mem _ (keys_filterMap_guard_subset P h rest x hx)

/-- Lookup in a guarded key-preserving `filterMap` over an association list
with nodup keys: the binding survives iff its value passes the guard. -/
theorem lookup_filterMap_guard {β γ : Type} (P : β → Prop) [DecidablePred P]
    (h : β → γ) :
    ∀ (cd : List (Nat × β)) (cid : Nat), (cd.map Prod.fst).Nodup →
      (cd.filterMap (fun q => if P q.2 then some (q.1, h q.2) else none)).lookup cid
        = (cd.lookup cid).bind (fun v => if P v then some (h v) else none)
  | [], _, _ => rfl
  | (k, b) :: rest, cid, hnd => by
      rw [List.map_cons] at hnd
      have hnd2 := (List.nodup_cons.mp hnd).2
      have hknotin := (List.nodup_cons.mp hnd).1
      rw [List.filterMap_cons]
      by_cases hck : cid = k
      · subst hck
        by_cases hp : P b
        · rw [if_pos hp, lookup_cons_self, lookup_cons_self]
          simp [hp]
        · rw [if_neg hp, lookup_cons_self]
          have : (rest.filterMap
              (fun q => if P q.2 then some (q.1, h q.2) else none)).lookup cid = none :=
            lookup_eq_none_of_not_mem_keys _ cid
              (fun hm => hknotin (keys_filterMap_guard_subset P h rest cid hm))
          rw [this]
          simp [hp]
      · by_cases hp : P b
        · rw [if_pos hp, lookup_cons_ne _ _ hck, lookup_cons_ne _ _ hck]
          exact lookup_filterMap_guard P h rest cid hnd2
        · rw [if_neg hp, lookup_cons_ne _ _ hck]
          exact lookup_filterMap_guard P h rest cid hnd2

/-- C4 counterexample: a cluster whose modulator list is empty gets *no*
shadow-coverage entry at all (the `if normalized_values:` guard drops it), so
its coverage is not the value `0` the claim states. -/
theorem shadow_coverage_empty_list_no_entry :
    ((get_cluster_shadow_coverage [("u", [(0, ([] : List ℚ))])] (1/2)).lookup
          "u").map (fun m => m.lookup 0) = some none ∧
    (some (none : Option ℚ)) ≠ some (some 0) := by
  exact ⟨rfl, by simp⟩

/-- C4 amended: (a) for every non-empty modulator list with values in `(0,1]`
and cutoff in `[0,1)` the folded coverage lies in `[0,1]` (no clamp in the
code); (b) a cluster whose modulator list is empty receives no coverage entry
in the map built by `get_cluster_shadow_coverage` (it is left for the
unaddressed branch of the aggregator). -/
theorem shadow_coverage_bounds_and_empty :
    (∀ (values : List ℚ) (cutoff : ℚ), values ≠ [] →
        (∀ v ∈ values, 0 < v ∧ v ≤ 1) → 0 ≤ cutoff → cutoff < 1 →
        0 ≤ codeShadow values cutoff ∧ codeShadow values cutoff ≤ 1) ∧
    (∀ (cwm : List (String × List (Nat × List ℚ))) (cutoff : ℚ) (u : String)
        (cd : List (Nat × List ℚ)) (cid : Nat),
        cwm.lookup u = some cd → cd.lookup cid = some [] →
        (cd.map Prod.fst).Nodup →
        ((get_cluster_shadow_coverage cwm cutoff).lookup u).map
            (fun m => m.lookup cid) = some none) := by
  constructor
  · intro values cutoff hne hall hc0 hc1
    have hmem := pyMax_mem values hne
    have hbounds := hall _ hmem
    simp only [codeShadow]
    exact foldl_shadow_bounds (pyMax values) cutoff hc0 hc1 values (pyMax values)
      (le_of_lt hbounds.1) hbounds.2 hall
  · intro cwm cutoff u cd cid hu hcd hnd
    have hkey : ∀ p : String × List (Nat × List ℚ),
        ((p.1, p.2.filterMap (fun q =>
          if q.2 ≠ [] then some (q.1, codeShadow q.2 cutoff) else none)) :
            String × List (Nat × ℚ)).1 = p.1 := fun _ => rfl
    unfold get_cluster_shadow_coverage
    rw [lookup_map_keyed _ hkey cwm u, hu]
    rw [show (Option.map (fun m => m.lookup cid)
        (Option.map (fun b => ((u, List.filterMap (fun q =>
          if q.2 ≠ [] then some (q.1, codeShadow q.2 cutoff) else none) b) :
            String × List (Nat × ℚ)).2) (some cd)))
      = some ((cd.filterMap (fun q =>
          if q.2 ≠ [] then some (q.1, codeShadow q.2 cutoff) else none)).lookup cid)
      from rfl]
    rw [lookup_filterMap_guard (fun v => v ≠ []) (fun v => codeShadow v cutoff) cd
      cid hnd, hcd]
    simp

/-- Witness for C4: part (a) at `values = [1/2]`, `cutoff = 1/2`; part (b) at
the one-user map binding cluster 0 to the empty modulator list. -/
theorem shadow_coverage_bounds_and_empty_witness :
    (0 ≤ codeShadow [1/2] (1/2) ∧ codeShadow [1/2] (1/2) ≤ 1) ∧
    ((get_cluster_shadow_coverage [("u", [(0, ([] : List ℚ))])] (1/2)).lookup
        "u").map (fun m => m.lookup 0) = some none :=
  ⟨shadow_coverage_bounds_and_empty.1 [1/2] (1/2) (by simp)
      (by intro v hv; rw [List.mem_singleton] at hv; subst hv; norm_num)
      (by norm_num) (by norm_num),
    shadow_coverage_bounds_and_empty.2 [("u", [(0, [])])] (1/2) "u" [(0, [])] 0
      rfl rfl (by simp)⟩

/-- C7 counterexample: a justification that *is* valid JSON (the number `1`)
but lacks the expected `content` object makes `gather_final_results` raise an
uncaught exception (`TypeError` from the subscript) instead of skipping the
cluster: only `json.JSONDecodeError` is caught. -/
theorem gather_raises_on_malformed_json_shape :
    gather_final_results [("u", [(0, 1/2)])] [("u", [(0, wepccBadShape)])] (5/2)
      = .error .typeError := rfl

/-- The addressed loop, under locally-recoverable item outcomes, succeeds and
appends exactly the surviving contributions. -/
theorem addressedLoop_ok (wep : WepccMap) (u : String) :
    ∀ (wm : List (Nat × ℚ)) (total : ℚ) (ad : List (Nat × ℚ))
      (en : List ClusterEntryR),
      (∀ q ∈ wm, localOk (itemScore wep u q.1)) →
      addressedLoop wep u total ad en wm
        = .ok (total + ((addressedOk wep u wm).map Prod.snd).sum,
            ad ++ addressedOk wep u wm, en ++ entriesAOk wep u wm)
  | [], total, ad, en, _ => by
      simp [addressedLoop, addressedOk, entriesAOk]
  | (cid, m) :: rest, total, ad, en, hall => by
      have h0 := hall (cid, m) (List.mem_cons_self _ _)
      rcases hsc : itemScore wep u cid with e | p
      · have he : e = PyErr.jsonDecodeError := by
          rcases h0 with ⟨q, hq⟩ | hq
          · rw [hsc] at hq
            cases hq
          · rw [hsc] at hq
            exact (Except.error.injEq _ _).mp hq
        subst he
        rw [addressedLoop, hsc]
        rw [addressedLoop_ok wep u rest total ad en
          (fun q hq => hall q (List.mem_cons_of_mem _ hq))]
        simp [addressedOk, entriesAOk, hsc]
      · rw [addressedLoop, hsc]
        dsimp only
        rw [addressedLoop_ok wep u rest _ _ _
          (fun q hq => hall q (List.mem_cons_of_mem _ hq))]
        simp only [addressedOk, entriesAOk, List.filterMap_cons, hsc]
        rw [List.map_cons, List.sum_cons, List.append_assoc, List.singleton_append,
          List.append_assoc, List.singleton_append, add_assoc]

/-- The unaddressed loop, under locally-recoverable score outcomes, succeeds
and appends exactly the surviving contributions. -/
theorem unaddressedLoop_ok (wm : List (Nat × ℚ)) (mult : ℚ) :
    ∀ (uw : List (Nat × Wepcc)) (total : ℚ) (un : List (Nat × ℚ))
      (en : List ClusterEntryR),
      (∀ e ∈ uw, localOk (scoreOf e.2.persuasiveness_justification)) →
      unaddressedLoop wm mult total un en uw
        = .ok (total + ((unaddressedOk mult wm uw).map Prod.snd).sum,
            un ++ unaddressedOk mult wm uw, en ++ entriesUOk mult wm uw)
  | [], total, un, en, _ => by
      simp [unaddressedLoop, unaddressedOk, entriesUOk]
  | (cid, w) :: rest, total, un, en, hall => by
      have h0 := hall (cid, w) (List.mem_cons_self _ _)
      by_cases hin : (wm.lookup cid).isSome
      · rw [unaddressedLoop, if_pos hin]
        rw [unaddressedLoop_ok wm mult rest total un en
          (fun e he => hall e (List.mem_cons_of_mem _ he))]
        simp [unaddressedOk, entriesUOk, hin]
      · rcases hsc : scoreOf w.persuasiveness_justification with e | p
        · have he : e = PyErr.jsonDecodeError := by
            rcases h0 with ⟨q, hq⟩ | hq
            · rw [hsc] at hq
              cases hq
            · rw [hsc] at hq
              exact (Except.error.injEq _ _).mp hq
          subst he
          rw [unaddressedLoop, if_neg hin, hsc]
          rw [unaddressedLoop_ok wm mult rest total un en
            (fun e he => hall e (List.mem_cons_of_mem _ he))]
          simp [unaddressedOk, entriesUOk, hin, hsc]
        · rw [unaddressedLoop, if_neg hin, hsc]
          dsimp only
          rw [unaddressedLoop_ok wm mult rest _ _ _
            (fun e he => hall e (List.mem_cons_of_mem _ he))]
          simp only [unaddressedOk, entriesUOk, List.filterMap_cons, hin, hsc,
            if_neg, Bool.false_eq_true, ite_false]
          rw [List.map_cons, List.sum_cons, List.append_assoc, List.singleton_append,
            List.append_assoc, List.singleton_append, add_assoc]

/-- The per-user body of `gather_final_results`, under locally-recoverable
outcomes, returns exactly the surviving contributions and their total. -/
theorem gatherUser_ok (wep : WepccMap) (mult : ℚ) (u : String)
    (wm : List (Nat × ℚ)) (w : List (Nat × Wepcc))
    (hw : wep.lookup u = some w)
    (hA : ∀ q ∈ wm, localOk (itemScore wep u q.1))
    (hU : ∀ e ∈ w, localOk (scoreOf e.2.persuasiveness_justification)) :
    gatherUser wep mult u wm
      = .ok (userTotal wep mult u wm, addressedOk wep u wm,
          unaddressedOkFor wep mult u wm, userEntries wep mult u wm) := by
  unfold gatherUser
  rw [addressedLoop_ok wep u wm 0 [] [] hA]
  dsimp only
  rw [hw]
  dsimp only
  rw [unaddressedLoop_ok wm mult w _ _ _ hU]
  dsimp only
  unfold userTotal unaddressedOkFor userEntries userWepcc
  rw [hw]
  simp [Option.getD]

/-- The outer user loop of `gather_final_results`, under locally-recoverable
outcomes, appends one block of outputs per user of the coverage map. -/
theorem gather_go_ok (wep : WepccMap) (mult : ℚ) :
    ∀ (cov : List (String × List (Nat × ℚ))) (acc : GatherResult),
      (∀ p ∈ cov, ∃ w, wep.lookup p.1 = some w ∧
          ∀ e ∈ w, localOk (scoreOf e.2.persuasiveness_justification)) →
      (∀ p ∈ cov, ∀ q ∈ p.2, localOk (itemScore wep p.1 q.1)) →
      gather_final_results.go wep mult acc cov
        = .ok {
            aggregated_scores := acc.aggregated_scores ++
              cov.map (fun p => (p.1, userTotal wep mult p.1 p.2)),
            addressed_clusters := acc.addressed_clusters ++
              cov.map (fun p => (p.1, addressedOk wep p.1 p.2)),
            unaddressed_clusters := acc.unaddressed_clusters ++
              cov.map (fun p => (p.1, unaddressedOkFor wep mult p.1 p.2)),
            results := acc.results ++
              cov.map (fun p =>
                ⟨p.1, userEntries wep mult p.1 p.2, userTotal wep mult p.1 p.2⟩)}
  | [], acc, _, _ => by
      simp [gather_final_results.go]
  | (u, wm) :: rest, acc, hW, hA => by
      obtain ⟨w, hw, hU⟩ := hW (u, wm) (List.mem_cons_self _ _)
      rw [gather_final_results.go]
      rw [gatherUser_ok wep mult u wm w hw (hA (u, wm) (List.mem_cons_self _ _)) hU]
      dsimp only [Except.bind]
      rw [gather_go_ok wep mult rest _
        (fun p hp => hW p (List.mem_cons_of_mem _ hp))
        (fun p hp => hA p (List.mem_cons_of_mem _ hp))]
      simp [List.append_assoc]

/-- C7 amended: when every persuasiveness justification consumed by
`gather_final_results` either yields a numeric score or fails *JSON parsing*
(`json.JSONDecodeError`, the only exception the code catches), the call
returns without raising, and its four outputs are exactly the per-user
`filterMap`s that keep the well-formed clusters and drop each parse-failing
cluster — dropped clusters appear in no contribution list and are excluded
from each participant's total.  (A justification that parses as JSON but
lacks the expected fields raises out of the function instead, see the
counterexample.) -/
theorem gather_skips_only_parse_failures (cov : List (String × List (Nat × ℚ)))
    (wep : WepccMap) (mult : ℚ)
    (hW : ∀ p ∈ cov, ∃ w, wep.lookup p.1 = some w ∧
        ∀ e ∈ w, localOk (scoreOf e.2.persuasiveness_justification))
    (hA : ∀ p ∈ cov, ∀ q ∈ p.2, localOk (itemScore wep p.1 q.1)) :
    gather_final_results cov wep mult
      = .ok {aggregated_scores := cov.map (fun p => (p.1, userTotal wep mult p.1 p.2)),
             addressed_clusters := cov.map (fun p => (p.1, addressedOk wep p.1 p.2)),
             unaddressed_clusters :=
               cov.map (fun p => (p.1, unaddressedOkFor wep mult p.1 p.2)),
             results := cov.map (fun p =>
               ⟨p.1, userEntries wep mult p.1 p.2, userTotal wep mult p.1 p.2⟩)} := by
  unfold gather_final_results
  rw [gather_go_ok wep mult cov _ hW hA]
  simp

/-- Witness for C7: one coverage user with an addressed well-formed cluster 0
and an unaddressed parse-failing cluster 1 — the call succeeds and the
parse-failing cluster is dropped. -/
theorem gather_skips_only_parse_failures_witness :
    gather_final_results [("u", [(0, 1/2)])]
        [("u", [(0, wepccGood), (1, wepccNoParse)])] (5/2)
      = .ok {aggregated_scores := [("u", [(0, 1/2)])].map (fun p =>
               (p.1, userTotal [("u", [(0, wepccGood), (1, wepccNoParse)])] (5/2) p.1 p.2)),
             addressed_clusters := [("u", [(0, 1/2)])].map (fun p =>
               (p.1, addressedOk [("u", [(0, wepccGood), (1, wepccNoParse)])] p.1 p.2)),
             unaddressed_clusters := [("u", [(0, 1/2)])].map (fun p =>
               (p.1, unaddressedOkFor [("u", [(0, wepccGood), (1, wepccNoParse)])] (5/2) p.1 p.2)),
             results := [("u", [(0, 1/2)])].map (fun p =>
               ⟨p.1, userEntries [("u", [(0, wepccGood), (1, wepccNoParse)])] (5/2) p.1 p.2,
                userTotal [("u", [(0, wepccGood), (1, wepccNoParse)])] (5/2) p.1 p.2⟩)} :=
  gather_skips_only_parse_failures [("u", [(0, 1/2)])]
    [("u", [(0, wepccGood), (1, wepccNoParse)])] (5/2)
    (by
      intro p hp
      rw [List.mem_singleton] at hp
      subst hp
      refine ⟨[(0, wepccGood), (1, wepccNoParse)], rfl, ?_⟩
      intro e he
      rcases List.mem_cons.mp he with h | h
      · subst h
        exact Or.inl ⟨4/5, rfl⟩
      · rw [List.mem_singleton] at h
        subst h
        exact Or.inr rfl)
    (by
      intro p hp
      rw [List.mem_singleton] at hp
      subst hp
      intro q hq
      rw [List.mem_singleton] at hq
      subst hq
      exact Or.inl ⟨4/5, rfl⟩)

/-- C5: a valid ingest appends the *bare message string* to the session's
message history — not a `{user id, content}` record — and
`aggregate_user_messages` then raises `TypeError` on that entry instead of
recovering a user id and content (its subscript `message['data']` hits a
string).  Previously stored entries are preserved and exactly one entry is
appended, but in the wrong shape. -/
theorem integrate_appends_bare_string :
    (integrate decodeAlice "tok" "hi" "mid" "onto" "g1"
        ⟨⟨[], [], [], none, none, none, none⟩, [], none⟩).2.app_state.get_history
        "message_history_s1" = [JVal.str "hi"] ∧
    (integrate decodeAlice "tok" "hi" "mid" "onto" "g1"
        ⟨⟨[("message_history_s1", [histEntry "alice" "a1"])], [], [],
          none, none, none, none⟩, [], none⟩).2.app_state.get_history
        "message_history_s1" = [histEntry "alice" "a1", JVal.str "hi"] ∧
    aggregate_user_messages [JVal.str "hi"] = .error PyErr.typeError ∧
    (integrate decodeAlice "tok" "hi" "mid" "onto" "g1"
        ⟨⟨[], [], [], none, none, none, none⟩, [], none⟩).1 = some "onto" :=
  ⟨rfl, rfl, rfl, rfl⟩

/-- Stage: aggregating the two-user history. -/
theorem trace_stage_agg :
    aggregate_user_messages (stTwoUsers.get_history ("message_history_" ++ "s1"))
      = .ok [("alice", ["a1", "a2"]), ("bob", ["b1", "b2"])] := rfl

/-- Stage: clustering the two users' messages. -/
theorem trace_stage_cm :
    cluster_messages collabOneCluster [("alice", ["a1", "a2"]), ("bob", ["b1", "b2"])]
      "N1" "s1" = clustersTwo := rfl

/-- Stage: with no previous clustering all clusters pass the diff. -/
theorem trace_stage_inc :
    incremental_clustering clustersTwo
      (stTwoUsers.get_previous_clusters ("previous_clusters_" ++ "s1")) = clustersTwo := rfl

/-- Stage: the modulator lists (similarity 1, cutoff 1/2, normalized 1). -/
theorem trace_stage_cwm :
    get_cluster_weight_modulator collabOneCluster wepccTwo (1/2) = cwmTwo := by
  simp [get_cluster_weight_modulator, collabOneCluster, wepccTwo, wepccGood,
    goodPJ, cwmTwo]
  norm_num [List.filterMap_cons, List.filterMap_nil]

/-- Stage: the shadow coverages (single value 1 folds to 1). -/
theorem trace_stage_cov :
    get_cluster_shadow_coverage cwmTwo (1/2) = covTwo := by
  norm_num [get_cluster_shadow_coverage, codeShadow, pyMax, shadowStep, cwmTwo,
    covTwo, List.filterMap_cons, List.filterMap_nil, List.foldl_cons,
    List.foldl_nil, max_self]

/-- Stage: the final aggregation (coverage 1 gives addressed score 0). -/
theorem trace_stage_gather :
    gather_final_results covTwo wepccTwo (5/2)
      = .ok {aggregated_scores := [("alice", 0), ("bob", 0)],
             addressed_clusters := [("alice", [(0, 0)]), ("bob", [(0, 0)])],
             unaddressed_clusters := [("alice", []), ("bob", [])],
             results := [⟨"alice", [⟨0, "addressed", 0⟩], 0⟩,
               ⟨"bob", [⟨0, "addressed", 0⟩], 0⟩]} := by
  simp [gather_final_results, gather_final_results.go, gatherUser,
    addressedLoop, unaddressedLoop, itemScore, scoreOf, json_loads, getItem,
    pyFloat, addressed_score, unaddressed_score, covTwo, wepccTwo, wepccGood,
    goodPJ, List.lookup]

/-- The two-user trace runs to completion — committing `previous_clusters`,
`wepcc_results` and all final aggregates — under *any* observation schedule
whose first two halting checks do not fire; `hwc` fixes the wepcc stage's
outcome under that schedule (the stage ignores the observations anyway). -/
theorem trace_general (env : ℕ → Option String)
    (h0 : check_generation_halting (env 0) "N1" = false)
    (h1 : check_generation_halting (env 1) "N1" = false)
    (hwc : wepcc_cluster collabOneCluster env 2 clustersTwo
      = (wepccTwo,
         [Event.wepcc_result cA.cluster_hash "alice" 0 cA.cluster_hash,
          Event.wepcc_result cB.cluster_hash "bob" 0 cB.cluster_hash], 4)) :
    check_and_reflect collabOneCluster env "s1" "alice" "N1" "m1" "a2"
      stTwoUsers = crTwo := by
  have hc0 : ¬ (check_generation_halting (env 0) "N1" = true) := by
    rw [h0]
    exact Bool.false_ne_true
  have hc1 : ¬ (check_generation_halting (env 1) "N1" = true) := by
    rw [h1]
    exact Bool.false_ne_true
  have hguard : ¬ (clustersTwo.length < 2 ∨ clustersTwo.any (fun p => p.2.length < 1)) := by
    simp [clustersTwo]
  simp only [check_and_reflect]
  rw [trace_stage_agg]
  dsimp only
  rw [trace_stage_cm, if_neg hc0, trace_stage_inc, if_neg hc1, hwc]
  dsimp only
  rw [if_neg hguard, trace_stage_cwm, trace_stage_cov, trace_stage_gather]
  rfl

/-- C1: a generation superseded after its second checkpoint (every later
observation of `self.current_generation` returns the newer nonce `N2`) is
*not* halted: the per-cluster wepcc checkpoint's `return` exits only the
reporting callback, there is no checkpoint between cross-match/fold and the
final stores, and the task runs to completion, committing `previous_clusters`
(already written before checkpoint 1), `wepcc_results` and the aggregated
scores to session state on behalf of the superseded nonce `N1`. -/
theorem superseded_generation_commits_results :
    check_and_reflect collabOneCluster envSuperseded "s1" "alice" "N1" "m1" "a2"
        stTwoUsers = crTwo ∧
    envSuperseded 2 = some "N2" ∧ envSuperseded 3 = some "N2" ∧
    ("N2" : String) ≠ "N1" ∧
    crTwo.error = none ∧
    crTwo.state.aggregated_scores = some [("alice", 0), ("bob", 0)] ∧
    crTwo.state.wepcc_results = some wepccTwo ∧
    crTwo.state.previous_clusters = [("previous_clusters_s1", clustersTwo)] := by
  refine ⟨trace_general envSuperseded rfl rfl rfl, rfl, rfl, by decide, rfl, rfl, rfl, rfl⟩

/-- C8 counterexample: `reset_processing_queue` drains the queue and clears
`self.current_generation`; but a generation in flight when the reset is
processed then observes `None` at every later checkpoint, and
`check_generation_halting` returns false on `None` — so the in-flight
generation runs to completion and *stores final aggregated results*,
refuting "no final aggregated results are stored for a generation that was in
flight when the reset was processed". -/
theorem reset_does_not_stop_inflight_generation :
    reset_processing_queue ⟨stTwoUsers, [Task.broadcast], some "N1"⟩
      = ⟨stTwoUsers, [], none⟩ ∧
    check_and_reflect collabOneCluster envAfterReset "s1" "alice" "N1" "m1" "a2"
        stTwoUsers = crTwo ∧
    crTwo.state.aggregated_scores ≠ none := by
  refine ⟨rfl, trace_general envAfterReset rfl rfl rfl, ?_⟩
  intro h
  simp [crTwo] at h

/-- One wepcc fold step only ever appends `wepcc_result` events. -/
theorem wepcc_foldl_events (cl : Collab) (env : ℕ → Option String) (user_id : String) :
    ∀ (ucs : List (Nat × Cluster)) (s : List (Nat × Wepcc) × List Event × ℕ),
      (∀ e ∈ s.2.1, e.isFinalResult = false) →
      ∀ e ∈ (ucs.foldl (wepcc_step cl env user_id) s).2.1, e.isFinalResult = false
  | [], _, hs => hs
  | q :: rest, s, hs => by
      rw [List.foldl_cons]
      apply wepcc_foldl_events cl env user_id rest
      intro e he
      unfold wepcc_step at he
      rcases List.mem_append.mp he with h | h
      · exact hs e h
      · rw [List.mem_singleton] at h
        subst h
        rfl

/-- The wepcc stage's event accumulator only ever holds non-`final_result`
events. -/
theorem wepcc_go_events (cl : Collab) (env : ℕ → Option String) :
    ∀ (cm : ClusterMap) (acc : WepccMap) (events : List Event) (k : ℕ),
      (∀ e ∈ events, e.isFinalResult = false) →
      ∀ e ∈ (wepcc_cluster.go cl env acc events k cm).2.1, e.isFinalResult = false
  | [], _, _, _, hs => hs
  | (user_id, ucs) :: rest, acc, events, k, hs => by
      rw [wepcc_cluster.go]
      exact wepcc_go_events cl env rest _ _ _
        (wepcc_foldl_events cl env user_id ucs ([], events, k) hs)

/-- C8 amended, parts that hold: a processed reset empties the task queue and
returns the controller to IDLE (`current_generation = None`) without running
the drained tasks; a checkpoint observing `None` does not halt (which is why
an in-flight generation survives the reset, see the counterexample); and no
`final_result` event is ever emitted by `check_and_reflect` — for *any*
generation, reset or not, because the pipeline never constructs one. -/
theorem reset_drains_and_no_final_result_event :
    (∀ st : DebateState, (reset_processing_queue st).task_queue = [] ∧
      (reset_processing_queue st).current_generation = none ∧
      (reset_processing_queue st).app_state = st.app_state) ∧
    (∀ nonce : String, check_generation_halting none nonce = false) ∧
    (∀ (cl : Collab) (env : ℕ → Option String) (sid uid nonce mid msg : String)
      (st : AppState),
      ((check_and_reflect cl env sid uid nonce mid msg st).events.all
        (fun e => !e.isFinalResult)) = true) := by
  refine ⟨fun st => ⟨rfl, rfl, rfl⟩, fun _ => rfl, ?_⟩
  intro cl env sid uid nonce mid msg st
  rw [List.all_eq_true]
  intro e he
  suffices h : e.isFinalResult = false by
    simp [h]
  revert he
  simp only [check_and_reflect]
  rcases hagg : aggregate_user_messages (st.get_history ("message_history_" ++ sid))
    with err | um
  · dsimp only
    intro he
    simp at he
  · dsimp only
    by_cases hb0 : check_generation_halting (env 0) nonce = true
    · rw [if_pos hb0]
      dsimp only
      intro he
      simp only [List.mem_singleton] at he
      subst he
      rfl
    · rw [if_neg hb0]
      by_cases hb1 : check_generation_halting (env 1) nonce = true
      · rw [if_pos hb1]
        dsimp only
        intro he
        simp only [List.mem_cons, List.mem_singleton, List.not_mem_nil, or_false] at he
        rcases he with h | h <;> (subst h; rfl)
      · rw [if_neg hb1]
        rcases hwc : wepcc_cluster cl env 2
            (incremental_clustering (cluster_messages cl um nonce sid)
              (st.get_previous_clusters ("previous_clusters_" ++ sid)))
          with ⟨w, evs, kk⟩
        dsimp only
        have hevs : ∀ x ∈ evs, x.isFinalResult = false := by
          have hgo := wepcc_go_events cl env
            (incremental_clustering (cluster_messages cl um nonce sid)
              (st.get_previous_clusters ("previous_clusters_" ++ sid)))
            [] [] 2 (by intro x hx; simp at hx)
          have hwc2 : wepcc_cluster.go cl env [] [] 2
              (incremental_clustering (cluster_messages cl um nonce sid)
                (st.get_previous_clusters ("previous_clusters_" ++ sid)))
            = (w, evs, kk) := hwc
          rw [hwc2] at hgo
          exact hgo
        have hmain : ∀ x, x ∈ ([Event.initial_clusters (cluster_messages cl um nonce sid)
              nonce,
            Event.updated_clusters (incremental_clustering
              (cluster_messages cl um nonce sid)
              (st.get_previous_clusters ("previous_clusters_" ++ sid))) nonce] ++ evs) →
            x.isFinalResult = false := by
          intro x hx
          rcases List.mem_append.mp hx with h | h
          · rcases List.mem_cons.mp h with h2 | h2
            · subst h2
              rfl
            · rw [List.mem_singleton] at h2
              subst h2
              rfl
          · exact hevs x h
        by_cases hg : (cluster_messages cl um nonce sid).length < 2 ∨
            ((cluster_messages cl um nonce sid).any fun p => decide (p.2.length < 1)) = true
        · rw [if_pos hg]
          exact hmain e
        · rw [if_neg hg]
          rcases gather_final_results
              (get_cluster_shadow_coverage
                (get_cluster_weight_modulator cl w (1/2)) (1/2)) w (5/2)
            with err2 | r
          · exact hmain e
          · exact hmain e

end Topos
